import Mathlib

/-!
Verification of the mocha (TypeScript port) execution-engine core against its
natural-language specification.  The definitions below are a shallow embedding
of the relevant source files:

  * `src/src/errors.ts`        — error constructors and error codes
  * `src/src/runnable.ts`      — `Runnable`: timeout setter, `isPending`, the
                                 `run`/`done`/`multiple` completion protocol,
                                 the timer closure of `resetTimeout`,
                                 `_timeoutError`, `toValueOrError`
  * `src/src/hook.ts`          — `Hook`: retained error slot, `serialize`
  * `src/unnamed/part_014`     — `Test`: constructor, `reset`, `clone`,
                                 `serialize`
  * `src/unnamed/part_004`     — the DSL `Common.suite.create` factory

JavaScript machine integers and timestamps are modelled as `Int`/`Nat`;
JavaScript `undefined`/`null` as `Option`; exceptions as `Except`.
-/

namespace MochaSpec

/-! ## Error model (src/src/errors.ts)

Error codes from `constants` in errors.ts.  A `code := none` models a plain
`Error` (or `TypeError`) carrying no mocha error code. -/

inductive ErrCode where
  | multipleDone      -- ERR_MOCHA_MULTIPLE_DONE
  | timeout           -- ERR_MOCHA_TIMEOUT
  | invalidArgType    -- ERR_MOCHA_INVALID_ARG_TYPE
  | unsupported       -- ERR_MOCHA_UNSUPPORTED
  | invalidException  -- ERR_MOCHA_INVALID_EXCEPTION
deriving DecidableEq, Repr

/-- A JavaScript `Error` as mocha decorates it: message plus the optional
`code`, `timeout` and `file` properties set by the factories in errors.ts. -/
structure MErr where
  message : String
  code : Option ErrCode
  timeoutMs : Option Nat
  file : Option String
deriving DecidableEq, Repr

/-- Plain `new Errors.Error(msg)` / `new Errors.TypeError(msg)`: no code. -/
def mkErr (msg : String) : MErr := ⟨msg, none, none, none⟩

/-- errors.ts `createTimeoutError(msg, timeout, file)`. -/
def createTimeoutError (msg : String) (tmo : Nat) (file : String) : MErr :=
  ⟨msg, some .timeout, some tmo, some file⟩

/-- errors.ts `createInvalidExceptionError(message, value)`. -/
def createInvalidExceptionError (msg : String) : MErr :=
  ⟨msg, some .invalidException, none, none⟩

/-- runnable.ts `Runnable.toValueOrError`: identity on a truthy value,
otherwise the "invalid exception" error. -/
def toValueOrError (v : Option MErr) : MErr :=
  v.getD (createInvalidExceptionError
    ("Runnable failed with falsy or undefined exception. Please throw an Error instead."))

/-- The Node util.format rendering of an `Error` under the s conversion: its `toString()`. -/
def errFormat (e : MErr) : String := "Error: " ++ e.message

/-- errors.ts `createMultipleDoneError(runnable, originalErr)`: the message
names the runnable type, its bracketed full title, optionally the root-suite
marker, the file and the stringified original error; code MULTIPLE_DONE. -/
def createMultipleDoneError (rtype fullTitle : String) (parentRoot : Bool)
    (file : Option String) (orig : Option MErr) : MErr :=
  let title := "<" ++ fullTitle ++ ">" ++ (if parentRoot then (" (of root suite)") else (""))
  let m1 := "done() called multiple times in " ++ rtype ++ " " ++ title
  let m2 := m1 ++ (match file with | some f => " of file " ++ f | none => "")
  let m3 := m2 ++ (match orig with
    | some e => "; in addition, done() received error: " ++ errFormat e
    | none => "")
  ⟨m3, some .multipleDone, none, none⟩

/-! ## Timeout threshold setter (src/src/runnable.ts, `Runnable.prototype.timeout`)

`utils.clamp` lives in src/utils.ts which is not part of the provided
sources. -/

/-- Modelled from the spec: `utils.clamp` (src/utils.ts is missing from the
provided sources); the spec says the value is "clamped to [0, 2^31−1]", i.e.
ordinary numeric clamping to the closed range. -/
def clamp (v lo hi : Int) : Int := min (max v lo) hi

/-- The `INT_MAX` constant of `Runnable.prototype.timeout`: `2^31 - 1`. -/
def INT_MAX : Int := 2 ^ 31 - 1

/-- Argument to `runnable.timeout(ms)`: a number or a shorthand string. -/
inductive TimeoutArg where
  | num (ms : Int)
  | str (s : String)
deriving DecidableEq, Repr

/-- Result of a call to `runnable.timeout(...)`: the getter returns the stored
threshold, the setter returns `this` with a new stored threshold. -/
inductive TimeoutCall where
  | got (ms : Int)
  | set (stored : Int)
deriving DecidableEq, Repr

/-- The clamp-and-disable computation of the `Runnable.prototype.timeout`
setter applied to a numeric value: clamp to `[0, INT_MAX]`, then store 0
when the clamped value hits either endpoint. -/
def timeoutStore (ms : Int) : Int :=
  if clamp ms 0 INT_MAX = 0 ∨ clamp ms 0 INT_MAX = INT_MAX then 0
  else clamp ms 0 INT_MAX

/-- src/src/runnable.ts `Runnable.prototype.timeout`.  `parse` stands for the
external `ms` string-to-milliseconds library (not part of this repository);
`stored` is the current `this._timeout`. -/
def Runnable.timeoutCall (parse : String → Int) (stored : Int)
    (arg : Option TimeoutArg) : TimeoutCall :=
  match arg with
  | none => .got stored
  | some a =>
    .set (timeoutStore (match a with
      | .num m => m
      | .str s => parse s))

/-- C3: a string argument is first converted by the `ms` library, the value is
clamped to [0, 2^31−1]; if the clamped value hits either endpoint the stored
threshold becomes 0 (timeouts disabled), otherwise it becomes the clamped
value; a zero-argument call returns the stored threshold unchanged. -/
theorem runnable_timeout_clamp_endpoints (parse : String → Int) (stored : Int)
    (a : TimeoutArg) :
    Runnable.timeoutCall parse stored none = .got stored ∧
    (let v : Int := match a with | .num m => m | .str s => parse s
     let c := min (max v 0) (2 ^ 31 - 1)
     ((c = 0 ∨ c = 2 ^ 31 - 1) →
        Runnable.timeoutCall parse stored (some a) = .set 0) ∧
     (0 < c → c < 2 ^ 31 - 1 →
        Runnable.timeoutCall parse stored (some a) = .set c)) := by
  refine ⟨rfl, fun h => ?_, fun h1 h2 => ?_⟩
  · cases a <;>
      simp only [Runnable.timeoutCall, timeoutStore, clamp, INT_MAX] at * <;>
      rw [if_pos (by exact_mod_cast h)]
  · cases a <;>
      simp only [Runnable.timeoutCall, timeoutStore, clamp, INT_MAX] at * <;>
      rw [if_neg (by omega)]

/-- Witness for `runnable_timeout_clamp_endpoints` at concrete inputs: the
numeric argument 3000 stores 3000, the argument 2^31−1 stores 0. -/
theorem runnable_timeout_clamp_endpoints_witness :
    Runnable.timeoutCall (fun _ => 0) 2000 (some (.num 3000)) = .set 3000 ∧
    Runnable.timeoutCall (fun _ => 0) 2000 (some (.num (2 ^ 31 - 1))) = .set 0 := by
  constructor
  · exact ((runnable_timeout_clamp_endpoints (fun _ => 0) 2000 (.num 3000)).2.2
      (by decide) (by decide))
  · exact ((runnable_timeout_clamp_endpoints (fun _ => 0) 2000
      (.num (2 ^ 31 - 1))).2.1 (by decide))

/-! ## The completion protocol of `Runnable.prototype.run` (src/src/runnable.ts)

`run(fn)` builds two closures over the locals `finished` / `errorWasHandled`
and the instance flag `timedOut`:

  * `done(err)`     — returns silently when `timedOut`; reports a multiple
                      completion when `finished`; otherwise clears the timer,
                      records the duration, synthesizes a timeout error when a
                      clean completion arrives after the threshold, and calls
                      `fn(err)` exactly once;
  * `multiple(err)` — emits one `createMultipleDoneError` on the error
                      channel, guarded by `errorWasHandled`;
  * the timer of `resetTimeout` — fires `done(_timeoutError(ms))`, then sets
                      `timedOut`.

The catch blocks of `run` set `errorWasHandled` before routing a
synchronously-thrown error into `done`.  We model one run as a fold over the
events that can reach this machinery. -/

/-- Parameters fixed for one `run()` invocation: the timeout threshold
`self.timeout()`, the start timestamp, and the data `createMultipleDoneError`
and `_timeoutError` read off the runnable. -/
structure RunProto where
  tmo : Nat
  start : Nat
  rtype : String
  fullTitle : String
  parentRoot : Bool
  file : Option String
deriving DecidableEq, Repr

/-- The mutable completion-protocol state of one `run()` invocation. -/
structure RunState where
  timedOut : Bool
  finished : Bool
  errorWasHandled : Bool
  timerArmed : Bool
deriving DecidableEq, Repr

/-- Protocol state plus observable outputs: the arguments of the invocations
of the run-completion callback `fn`, and the errors emitted on the
error channel, each in order. -/
structure RunOut where
  st : RunState
  fnCalls : List (Option MErr)
  emitted : List MErr
deriving DecidableEq, Repr

/-- runnable.ts `Runnable.prototype._timeoutError`. -/
def timeoutErrorOf (ms : Nat) (file : Option String) : MErr :=
  let msg := "Timeout of " ++ toString ms ++
    "ms exceeded. For async tests and hooks, ensure \"done()\" is called; if returning a Promise, ensure it resolves." ++
    (match file with | some f => " (" ++ f ++ ")" | none => "")
  createTimeoutError msg ms (file.getD (""))

/-- The error `multiple(err)` emits for runnable `p`. -/
def multipleOf (p : RunProto) (err : Option MErr) : MErr :=
  createMultipleDoneError p.rtype p.fullTitle p.parentRoot p.file err

/-- The `done(err)` closure of `run`, called at timestamp `now`: early return
when timed out; `multiple(err)` (guarded by `errorWasHandled`) when already
finished; otherwise clear the timer, set `finished`, replace a clean late
completion by `_timeoutError` when `duration > ms && ms > 0`, and call
`fn(err)`. -/
def doneStep (p : RunProto) (now : Nat) (err : Option MErr) (o : RunOut) : RunOut :=
  if o.st.timedOut then o
  else if o.st.finished then
    if o.st.errorWasHandled then o
    else { o with st := { o.st with errorWasHandled := true },
                  emitted := o.emitted ++ [multipleOf p err] }
  else
    { o with st := { o.st with finished := true, timerArmed := false },
             fnCalls := o.fnCalls ++
               [if err = none ∧ now - p.start > p.tmo ∧ p.tmo > 0
                then some (timeoutErrorOf p.tmo p.file) else err] }

/-- The timer callback armed by `resetTimeout`: a cleared (or never armed)
one-shot timer cannot fire; otherwise, unless `self.timeout()` is 0, it calls
`self.callback(self._timeoutError(ms))` and then sets `self.timedOut`. -/
def markTimedOut (o : RunOut) : RunOut :=
  { o with st := { o.st with timedOut := true, timerArmed := false } }

def fireStep (p : RunProto) (now : Nat) (o : RunOut) : RunOut :=
  if o.st.timerArmed = false then o
  else if p.tmo = 0 then { o with st := { o.st with timerArmed := false } }
  else markTimedOut (doneStep p now (some (timeoutErrorOf p.tmo p.file)) o)

/-- The catch blocks of `run` for a synchronously-thrown non-Pending value
with `allowUncaught` unset: set `errorWasHandled`, then
`done(Runnable.toValueOrError(err))`. -/
def caughtStep (p : RunProto) (now : Nat) (e : Option MErr) (o : RunOut) : RunOut :=
  doneStep p now (some (toValueOrError e))
    { o with st := { o.st with errorWasHandled := true } }

/-- An event reaching the completion machinery of one `run()` invocation:
a completion signal (the declared callback, a settled thenable, or the
synchronous return path), the timeout timer firing, or a synchronous throw
reaching a catch block. -/
inductive RunEvent where
  | signal (now : Nat) (err : Option MErr)
  | fire (now : Nat)
  | caught (now : Nat) (err : Option MErr)
deriving DecidableEq, Repr

def stepEvent (p : RunProto) (o : RunOut) (e : RunEvent) : RunOut :=
  match e with
  | .signal now err => doneStep p now err o
  | .fire now => fireStep p now o
  | .caught now err => caughtStep p now err o

/-- The protocol state right after `run` set up `done`: nothing finished,
no error handled, the timer armed iff `resetTimeout` ran with `ms ≠ 0`. -/
def initOut (armed : Bool) : RunOut := ⟨⟨false, false, false, armed⟩, [], []⟩

/-- One `run()` invocation observed through a sequence of events. -/
def runTrace (p : RunProto) (armed : Bool) (es : List RunEvent) : RunOut :=
  es.foldl (stepEvent p) (initOut armed)

/-- Reachability invariant of the completion protocol. -/
def ProtoInv (p : RunProto) (o : RunOut) : Prop :=
  (o.st.finished = false → o.fnCalls = []) ∧
  o.fnCalls.length ≤ 1 ∧
  (o.st.errorWasHandled = false → o.emitted = []) ∧
  o.emitted.length ≤ 1 ∧
  (∀ e ∈ o.emitted, ∃ orig, e = multipleOf p orig)

theorem protoInv_init (p : RunProto) (armed : Bool) : ProtoInv p (initOut armed) := by
  refine ⟨fun _ => rfl, by simp [initOut], fun _ => rfl, by simp [initOut], ?_⟩
  simp [initOut]

theorem protoInv_done (p : RunProto) (now : Nat) (err : Option MErr) (o : RunOut)
    (h : ProtoInv p o) : ProtoInv p (doneStep p now err o) := by
  obtain ⟨h1, h2, h3, h4, h5⟩ := h
  unfold doneStep
  split
  · exact ⟨h1, h2, h3, h4, h5⟩
  · split
    · split
      · exact ⟨h1, h2, h3, h4, h5⟩
      · rename_i hfin hhand
        rw [Bool.not_eq_true] at hhand
        refine ⟨fun hc => by simp at hc; simp [hc] at hfin, h2,
          fun hc => by simp at hc, ?_, ?_⟩
        · simp [h3 hhand]
        · intro e he
          simp [h3 hhand] at he
          exact ⟨err, he⟩
    · rename_i htv hfin
      rw [Bool.not_eq_true] at hfin
      refine ⟨fun hc => by simp at hc, ?_, h3, h4, h5⟩
      simp [h1 hfin]

theorem protoInv_step (p : RunProto) (o : RunOut) (e : RunEvent)
    (h : ProtoInv p o) : ProtoInv p (stepEvent p o e) := by
  obtain ⟨h1, h2, h3, h4, h5⟩ := h
  cases e with
  | signal now err =>
    show ProtoInv p (doneStep p now err o)
    exact protoInv_done p now err o ⟨h1, h2, h3, h4, h5⟩
  | fire now =>
    show ProtoInv p (fireStep p now o)
    unfold fireStep
    split
    · exact ⟨h1, h2, h3, h4, h5⟩
    · split
      · exact ⟨h1, h2, h3, h4, h5⟩
      · have := protoInv_done p now (some (timeoutErrorOf p.tmo p.file)) o
          ⟨h1, h2, h3, h4, h5⟩
        obtain ⟨g1, g2, g3, g4, g5⟩ := this
        exact ⟨fun hc => g1 hc, g2, fun hc => g3 hc, g4, g5⟩
  | caught now err =>
    show ProtoInv p (caughtStep p now err o)
    unfold caughtStep
    have : ProtoInv p { o with st := { o.st with errorWasHandled := true } } := by
      refine ⟨h1, h2, fun hc => by simp at hc, h4, h5⟩
    exact protoInv_done p now (some (toValueOrError err)) _ this

theorem protoInv_trace (p : RunProto) (armed : Bool) (es : List RunEvent) :
    ProtoInv p (runTrace p armed es) := by
  unfold runTrace
  induction es using List.reverseRecOn with
  | nil => exact protoInv_init p armed
  | append_singleton es e ih =>
    rw [List.foldl_append]
    exact protoInv_step p _ e ih

theorem runTrace_append_one (p : RunProto) (armed : Bool) (es : List RunEvent)
    (e : RunEvent) :
    runTrace p armed (es ++ [e]) = stepEvent p (runTrace p armed es) e := by
  unfold runTrace
  rw [List.foldl_append]
  rfl

/-- The message of a multiple-done error names the runnable type and the
bracketed full title. -/
theorem multipleOf_message (p : RunProto) (orig : Option MErr) :
    ∃ a b, (multipleOf p orig).message =
      a ++ (p.rtype ++ (" <" ++ (p.fullTitle ++ (">" ++ b)))) := by
  refine ⟨"done() called multiple times in ",
    (if p.parentRoot then (" (of root suite)") else ("")) ++
      ((match p.file with | some f => " of file " ++ f | none => "") ++
       (match orig with
        | some e => "; in addition, done() received error: " ++ errFormat e
        | none => "")), ?_⟩
  rw [show (" <" : String) = " " ++ "<" from rfl]
  simp only [multipleOf, createMultipleDoneError, String.append_assoc]

/-- A sample runnable for concrete executions of the completion protocol:
type `test`, full title `suite a test b`, timeout threshold 50ms, no file. -/
def sampleProto : RunProto := ⟨50, 0, "test", "suite a test b", false, none⟩

/-- A sample user error. -/
def sampleErr : MErr := mkErr ("boom")

/-- C1 (amended): over every event sequence reaching the completion
machinery of one `run(fn)` invocation, `fn` is invoked at most once; at most
one error is emitted on the error channel, and every emitted error is a
multiple-done error (code ERR_MOCHA_MULTIPLE_DONE, message naming the
runnable type and full title); and when the done signal is raised again
after `fn` was invoked, the runnable not timed out and no error yet handled,
exactly one multiple-done error is emitted instead of invoking `fn` again. -/
theorem runnable_run_completion_at_most_once (p : RunProto) (armed : Bool)
    (es : List RunEvent) :
    (runTrace p armed es).fnCalls.length ≤ 1 ∧
    (runTrace p armed es).emitted.length ≤ 1 ∧
    (∀ e ∈ (runTrace p armed es).emitted, e.code = some ErrCode.multipleDone ∧
      ∃ a b, e.message = a ++ (p.rtype ++ (" <" ++ (p.fullTitle ++ (">" ++ b))))) ∧
    (∀ now err, (runTrace p armed es).st.finished = true →
      (runTrace p armed es).st.timedOut = false →
      (runTrace p armed es).st.errorWasHandled = false →
      (runTrace p armed (es ++ [.signal now err])).fnCalls
          = (runTrace p armed es).fnCalls ∧
      (runTrace p armed (es ++ [.signal now err])).emitted = [multipleOf p err]) := by
  obtain ⟨i1, i2, i3, i4, i5⟩ := protoInv_trace p armed es
  refine ⟨i2, i4, ?_, ?_⟩
  · intro e he
    obtain ⟨orig, rfl⟩ := i5 e he
    exact ⟨rfl, multipleOf_message p orig⟩
  · intro now err hfin htv hhand
    rw [runTrace_append_one]
    constructor <;>
      simp [stepEvent, doneStep, htv, hfin, hhand, i3 hhand]

/-- Counterexample to C1 as stated: the user completes cleanly (`fn` is
invoked once) and the body then throws synchronously; the catch block marks
the error handled and raises the done signal a second time, the runnable has
not timed out, yet no multiple-done error is emitted at all — the extra
completion is silently ignored. -/
theorem runnable_run_multiple_done_suppressed_cex :
    (runTrace sampleProto false [.signal 5 none]).fnCalls = [none] ∧
    (runTrace sampleProto false [.signal 5 none]).st.finished = true ∧
    (runTrace sampleProto false
        [.signal 5 none, .caught 6 (some sampleErr)]).st.timedOut = false ∧
    (runTrace sampleProto false
        [.signal 5 none, .caught 6 (some sampleErr)]).emitted = [] ∧
    (runTrace sampleProto false
        [.signal 5 none, .caught 6 (some sampleErr)]).fnCalls = [none] := by
  refine ⟨rfl, rfl, rfl, rfl, rfl⟩

/-- Witness for `runnable_run_completion_at_most_once`: a plain double
completion with no caught error emits exactly the multiple-done error. -/
theorem runnable_run_completion_at_most_once_witness :
    (runTrace sampleProto false [.signal 5 none]).st.finished = true ∧
    (runTrace sampleProto false
        ([.signal 5 none] ++ [.signal 9 none])).emitted
      = [multipleOf sampleProto none] := by
  refine ⟨rfl, ?_⟩
  exact ((runnable_run_completion_at_most_once sampleProto false
    [.signal 5 none]).2.2.2 9 none rfl rfl rfl).2

/-- C2 (amended): once the timeout timer has fired (`timedOut` is set), a
later completion signal is silently discarded by the `timedOut` early return
of `done`: the protocol state, the completion-callback invocations and the
error channel are all left unchanged — in particular no second pass/fail
outcome and no multiple-completion report. -/
theorem runnable_timedout_late_completion_discarded (p : RunProto)
    (armed : Bool) (es : List RunEvent) (now : Nat) (err : Option MErr)
    (h : (runTrace p armed es).st.timedOut = true) :
    runTrace p armed (es ++ [.signal now err]) = runTrace p armed es := by
  rw [runTrace_append_one]
  show doneStep p now err (runTrace p armed es) = runTrace p armed es
  simp [doneStep, h]

/-- Counterexample to C2 as stated: the timer fires at 100ms (one fail
outcome carrying the timeout error), and the late completion arriving at
200ms produces no multiple-completion report — the error channel stays
empty, contradicting "is reported as a multiple-completion report". -/
theorem runnable_timedout_late_completion_cex :
    (runTrace sampleProto true [.fire 100]).st.timedOut = true ∧
    (runTrace sampleProto true [.fire 100, .signal 200 none]).emitted = [] ∧
    (runTrace sampleProto true [.fire 100, .signal 200 none]).fnCalls
      = [some (timeoutErrorOf 50 none)] := by
  refine ⟨rfl, rfl, rfl⟩

/-- Witness for `runnable_timedout_late_completion_discarded`: after the
timer fired at 100ms, the completion signal at 200ms changes nothing. -/
theorem runnable_timedout_late_completion_discarded_witness :
    (runTrace sampleProto true [.fire 100]).st.timedOut = true ∧
    runTrace sampleProto true ([.fire 100] ++ [.signal 200 none])
      = runTrace sampleProto true [.fire 100] :=
  ⟨rfl, runnable_timedout_late_completion_discarded sampleProto true
    [.fire 100] 200 none rfl⟩

/-- C10: a clean completion signal (`err` absent) arriving from the initial
protocol state (timer not yet fired) whose measured duration strictly
exceeds a positive timeout threshold makes `done` report the attempt as
failed with the synthesized `_timeoutError`: code ERR_MOCHA_TIMEOUT, message
embedding the threshold and, when set, the file path. -/
theorem runnable_done_synthesizes_timeout (p : RunProto) (armed : Bool)
    (now : Nat) (h1 : 0 < p.tmo) (h2 : p.tmo < now - p.start) :
    doneStep p now none (initOut armed)
      = ⟨⟨false, true, false, false⟩, [some (timeoutErrorOf p.tmo p.file)], []⟩ ∧
    (timeoutErrorOf p.tmo p.file).code = some ErrCode.timeout ∧
    (timeoutErrorOf p.tmo p.file).timeoutMs = some p.tmo ∧
    (∃ a b, (timeoutErrorOf p.tmo p.file).message
        = a ++ (toString p.tmo ++ ("ms" ++ b))) ∧
    (∀ f, p.file = some f →
      ∃ a b, (timeoutErrorOf p.tmo p.file).message = a ++ (f ++ b)) := by
  refine ⟨?_, rfl, rfl, ?_, ?_⟩
  · simp [doneStep, initOut, h1, h2]
  · refine ⟨"Timeout of ", " exceeded. For async tests and hooks, ensure \"done()\" is called; if returning a Promise, ensure it resolves." ++
      (match p.file with | some f => " (" ++ f ++ ")" | none => ""), ?_⟩
    simp only [timeoutErrorOf, createTimeoutError, String.append_assoc]
    rw [show ("ms exceeded. For async tests and hooks, ensure \"done()\" is called; if returning a Promise, ensure it resolves." : String)
        = "ms" ++ " exceeded. For async tests and hooks, ensure \"done()\" is called; if returning a Promise, ensure it resolves." from rfl]
    simp only [String.append_assoc]
  · intro f hf
    refine ⟨"Timeout of " ++ (toString p.tmo ++
      ("ms exceeded. For async tests and hooks, ensure \"done()\" is called; if returning a Promise, ensure it resolves." ++ " (")), ")", ?_⟩
    rw [hf]
    simp only [timeoutErrorOf, createTimeoutError, String.append_assoc]

/-- Witness for `runnable_done_synthesizes_timeout` at threshold 50ms,
completion at timestamp 100, file `a.js`. -/
theorem runnable_done_synthesizes_timeout_witness :
    0 < (50 : Nat) ∧
    doneStep ⟨50, 0, "test", "t", false, some ("a.js")⟩ 100 none (initOut false)
      = ⟨⟨false, true, false, false⟩, [some (timeoutErrorOf 50 (some ("a.js")))], []⟩ :=
  ⟨by decide, (runnable_done_synthesizes_timeout ⟨50, 0, "test", "t", false, some ("a.js")⟩
    false 100 (by decide) (by decide)).1⟩

/-! ## The synchronous phase of `Runnable.prototype.run` (src/src/runnable.ts)

`run(fn)` first returns `fn()` when the runnable is pending, then assigns
`this.callback`, rejects a non-callable body, arms the timer in explicit
async mode, and invokes the body through `callFnAsync` / `callFn`.  We model
the synchronous actions it performs, in order.  `allowUncaught` is taken as
unset (its default). -/

/-- The per-runnable data `run` consults before and around the body call. -/
structure RunnableM where
  pending : Bool
  parentPending : Bool   -- Boolean(this.parent && this.parent.isPending())
  hasFn : Bool           -- this.fn is set
  fnCallable : Bool      -- typeof this.fn.call === function
  arity : Nat            -- this.fn.length
  tmo : Nat              -- this.timeout()
  asyncOnly : Bool
deriving DecidableEq, Repr

/-- runnable.ts `Runnable.prototype.isPending`:
`this.pending || Boolean(this.parent && this.parent.isPending())`. -/
def RunnableM.isPending (r : RunnableM) : Bool := r.pending || r.parentPending

/-- The `async` flag of the `Runnable` constructor: `!!fn && fn.length`. -/
def RunnableM.isAsync (r : RunnableM) : Bool := r.hasFn && r.arity != 0

/-- What the user body does during its synchronous call frame. -/
inductive BodyOutcome where
  | ret (thenable : Bool)   -- returned normally; did the result expose .then
  | thrPending              -- threw the Pending skip marker
  | thr (e : Option MErr)   -- threw any other (possibly falsy) value
deriving DecidableEq, Repr

/-- A synchronous action of `run(fn)`. -/
inductive RunAct where
  | setCallback             -- this.callback = done
  | armTimer                -- resetTimeout arms the timer
  | setSkipOverride         -- this.skip = asyncSkip
  | invokeBody              -- the user body function is called
  | callFn (err : Option MErr)  -- the run-completion callback fn is invoked
deriving DecidableEq, Repr

/-- The TypeError of `run` for a non-callable body. -/
def runnableTypeError : MErr :=
  mkErr ("A runnable must be passed a function as its second argument.")

/-- The `--async-only` error of `callFn`. -/
def asyncOnlyError : MErr :=
  mkErr ("--async-only option in use without declaring done() or returning a promise")

/-- The synchronous actions of one `run(fn)` invocation, in order, as a
function of the runnable and of what the body does synchronously:
`if (this.isPending()) return fn();` — otherwise assign `this.callback`,
reject a non-callable `fn`, then the explicit-async branch (arm the timer
unless the threshold is 0, install the skip override, call the body, route a
synchronous throw into `done`) or the sync/promise branch (`callFn`: a
thenable return arms the timer and waits, a plain return completes — or
fails under `asyncOnly` —, a Pending throw completes cleanly, another throw
completes with `toValueOrError`). -/
def runActs (r : RunnableM) (b : BodyOutcome) : List RunAct :=
  if r.isPending then [.callFn none]
  else
    .setCallback ::
    (if r.hasFn && !r.fnCallable then [.callFn (some runnableTypeError)]
     else if r.isAsync then
       (if r.tmo = 0 then [] else [.armTimer]) ++ [.setSkipOverride, .invokeBody] ++
       (match b with
        | .ret _ => []       -- completion arrives later through the declared callback
        | .thrPending => []  -- done() was already called inside the skip override
        | .thr e => [.callFn (some (toValueOrError e))])
     else
       .invokeBody ::
       (match b with
        | .ret true => if r.tmo = 0 then [] else [.armTimer]  -- wait on the thenable
        | .ret false => if r.asyncOnly then [.callFn (some asyncOnlyError)]
                        else [.callFn none]
        | .thrPending => [.callFn none]
        | .thr e => [.callFn (some (toValueOrError e))]))

/-- C4: a pending runnable (own flag or an ancestor suite pending, i.e.
`isPending()`) completes immediately with no error, never executes its body,
never arms a timer, and performs no other action at all — in particular it
does not assign `this.callback` and does not touch its own state. -/
theorem runnable_run_pending_short_circuit (r : RunnableM) (b : BodyOutcome)
    (h : r.isPending = true) :
    runActs r b = [.callFn none] ∧
    RunAct.invokeBody ∉ runActs r b ∧
    RunAct.armTimer ∉ runActs r b ∧
    RunAct.setCallback ∉ runActs r b := by
  have he : runActs r b = [.callFn none] := by
    unfold runActs
    rw [if_pos h]
  refine ⟨he, ?_, ?_, ?_⟩ <;> rw [he] <;> simp

/-- Witness for `runnable_run_pending_short_circuit`: a runnable whose own
flag is unset but whose parent chain is pending. -/
theorem runnable_run_pending_short_circuit_witness :
    RunnableM.isPending ⟨false, true, true, true, 0, 2000, false⟩ = true ∧
    runActs ⟨false, true, true, true, 0, 2000, false⟩ (.ret false)
      = [.callFn none] :=
  ⟨by decide, (runnable_run_pending_short_circuit _ (.ret false) (by decide)).1⟩

/-! ## The completion callback of `callFnAsync` (src/src/runnable.ts)

In explicit-async mode the body receives a completion function; its argument
is normalized before reaching `done`. -/

/-- The value the user passes to the declared completion callback, by the
shape tests `callFnAsync` performs on it. -/
inductive DoneVal where
  | errObj (e : MErr)        -- instanceof Error, or toString [object Error]
  | plainObj (json : String) -- other truthy with toString [object Object];
                             -- `json` is its JSON.stringify rendering
  | truthy (s : String)      -- any other truthy value; `s` is its string coercion
  | falsy                    -- undefined, null, 0, the empty string, false, NaN
deriving DecidableEq, Repr

/-- The overspecified-resolution error of `callFnAsync`. -/
def overspecifiedError : MErr :=
  mkErr ("Resolution method is overspecified. Specify a callback *or* return a Promise; not both.")

/-- The error argument the completion callback of `callFnAsync` hands to `done`:
an Error(-shaped) value passes through; a truthy non-Error is wrapped into a
descriptive error; a clean completion while the body also returned a
thenable (`utils.isPromise(result)`) is the overspecified-resolution error;
otherwise the completion is clean. -/
def callFnAsyncDone (resultThenable : Bool) (v : DoneVal) : Option MErr :=
  match v with
  | .errObj e => some e
  | .plainObj j => some (mkErr ("done() invoked with non-Error: " ++ j))
  | .truthy s => some (mkErr ("done() invoked with non-Error: " ++ s))
  | .falsy =>
    if resultThenable then some overspecifiedError
    else none

/-- C5: in declared-callback mode, a truthy non-Error completion value
yields an error whose message begins `done() invoked with non-Error`; a
clean completion while the body also returned a thenable yields the
overspecified-resolution error; an Error completion value reaches `done` —
and hence the run-completion callback, from a fresh protocol state —
unchanged. -/
theorem runnable_callFnAsync_completion_normalization (p : RunProto)
    (th : Bool) (now : Nat) :
    (∀ e, callFnAsyncDone th (.errObj e) = some e ∧
      (doneStep p now (callFnAsyncDone th (.errObj e)) (initOut true)).fnCalls
        = [some e]) ∧
    (∀ v, ((∃ j, v = DoneVal.plainObj j) ∨ (∃ s, v = DoneVal.truthy s)) →
      ∃ rest, callFnAsyncDone th v
        = some (mkErr ("done() invoked with non-Error" ++ rest))) ∧
    (th = true → callFnAsyncDone th .falsy = some overspecifiedError ∧
      (doneStep p now (callFnAsyncDone th .falsy) (initOut true)).fnCalls
        = [some overspecifiedError]) := by
  refine ⟨fun e => ⟨rfl, ?_⟩, ?_, fun hth => ⟨by rw [hth]; rfl, ?_⟩⟩
  · simp [callFnAsyncDone, doneStep, initOut]
  · rintro v (⟨j, rfl⟩ | ⟨s, rfl⟩)
    · exact ⟨": " ++ j, by simp [callFnAsyncDone, mkErr, String.append_assoc]; rfl⟩
    · exact ⟨": " ++ s, by simp [callFnAsyncDone, mkErr, String.append_assoc]; rfl⟩
  · rw [hth]
    simp [callFnAsyncDone, doneStep, initOut]

/-- Witness for `runnable_callFnAsync_completion_normalization`: the clean
completion of a thenable-returning body is overspecified. -/
theorem runnable_callFnAsync_completion_normalization_witness :
    callFnAsyncDone true .falsy = some overspecifiedError :=
  ((runnable_callFnAsync_completion_normalization sampleProto true 0).2.2 rfl).1

/-! ## The retained error slot of `Hook` (src/src/hook.ts)

`Hook.prototype.error` is getter and setter in one: with an argument it
stores it in `this._error`; with no argument it reads `this._error`, writes
`null` into the slot and returns what it read.  `Hook.prototype.reset`
deletes the slot.  The slot is `Option (Option MErr)`: `none` is an absent
(deleted / never assigned) `_error`, `some none` is `null`, `some (some e)`
a retained error.  The declared setter type also admits `null`; the claim
quantifies over actual errors, so `put` carries an `MErr`. -/

inductive HookOp where
  | put (e : MErr)   -- hook.error(e)
  | take             -- hook.error()  (zero-argument)
  | res              -- hook.reset()
deriving DecidableEq, Repr

/-- One operation on the slot: the new slot contents, and the value the
operation returned (`none` models `undefined` for the setter and reset). -/
def hookErrorStep (s : Option (Option MErr)) (op : HookOp) :
    Option (Option MErr) × Option (Option MErr) :=
  match op with
  | .put e => (some (some e), none)
  | .take => (some none, s)
  | .res => (none, none)

/-- C7: after `error(e)` the slot retains `e`; a zero-argument `error()`
returns the retained `e` and writes `null`, so an immediately following
zero-argument `error()` returns `null`; and from a slot retaining an error,
the only operations that leave the slot not retaining an error are the
zero-argument read and `reset()`. -/
theorem hook_error_slot_clear_on_read (e : MErr) (s : Option (Option MErr)) :
    (hookErrorStep s (.put e)).1 = some (some e) ∧
    hookErrorStep (some (some e)) .take = (some none, some (some e)) ∧
    hookErrorStep (some none) .take = (some none, some none) ∧
    (∀ op : HookOp, (∃ e2, (hookErrorStep (some (some e)) op).1 = some (some e2)) ∨
      op = .take ∨ op = .res) := by
  refine ⟨rfl, rfl, rfl, fun op => ?_⟩
  cases op with
  | put e2 => exact .inl ⟨e2, rfl⟩
  | take => exact .inr (.inl rfl)
  | res => exact .inr (.inr rfl)

/-! ## The DSL suite factory (src/unnamed/part_004, `Common(...).suite.create`)

`create(opts)` builds the suite, copies `opts.pending`, throws the
unsupported error under `forbidPending` when the pending suite would be
tested, then: a function body is called; an `undefined` body on a
non-pending suite throws `createMissingArgumentError` (a missing-argument
configuration error, code ERR_MOCHA_INVALID_ARG_TYPE) naming the full title
of the suite; an absent body on a pending suite is accepted.  Throwing happens
while the declaration runs, modelled by `Except` at the call. -/

/-- part_004 missing-callback error: `createMissingArgumentError` delegates
to `createInvalidArgumentTypeError` in errors.ts. -/
def missingCallbackError (fullTitle : String) : MErr :=
  ⟨"Suite \"" ++ fullTitle ++
    "\" was defined but no callback was supplied. Supply a callback or explicitly skip the suite.",
   some .invalidArgType, none, none⟩

/-- errors.ts `createUnsupportedError` for a forbidden pending test. -/
def pendingForbiddenError : MErr :=
  ⟨"Pending test forbidden", some .unsupported, none, none⟩

/-- part_004 `suite.create`, reduced to the data it branches on:
`forbidPending` and `shouldBeTested` from the mocha options, the full title
of the new suite, whether `opts.fn` is a function or `undefined`, and
`Boolean(opts.pending)`.  Returns the pending flag of the created suite. -/
def commonSuiteCreate (forbidPending shouldBeTested : Bool) (fullTitle : String)
    (fnPresent pending : Bool) : Except MErr Bool :=
  if pending && forbidPending && shouldBeTested then .error pendingForbiddenError
  else if fnPresent then .ok pending
  else if !pending then .error (missingCallbackError fullTitle)
  else .ok pending

/-- C8: declaring a suite with no body function and no pending flag throws
the missing-argument configuration error synchronously, whose message names
the full title of the suite; with the pending flag set (and the `forbidPending`
option at its default `false`) a missing body raises no error and the suite
is created pending. -/
theorem dsl_suite_create_missing_callback (forbidPending shouldTest : Bool)
    (fullTitle : String) :
    commonSuiteCreate forbidPending shouldTest fullTitle false false
      = .error (missingCallbackError fullTitle) ∧
    (∃ a b, (missingCallbackError fullTitle).message = a ++ (fullTitle ++ b)) ∧
    (forbidPending = false →
      commonSuiteCreate forbidPending shouldTest fullTitle false true = .ok true) := by
  refine ⟨rfl, ⟨"Suite \"",
    "\" was defined but no callback was supplied. Supply a callback or explicitly skip the suite.",
    by simp [missingCallbackError, String.append_assoc]⟩, fun h => ?_⟩
  rw [h]
  rfl

/-- Witness for `dsl_suite_create_missing_callback` at a concrete title. -/
theorem dsl_suite_create_missing_callback_witness :
    commonSuiteCreate false true ("outer inner") false false
      = .error (missingCallbackError ("outer inner")) ∧
    commonSuiteCreate false true ("outer inner") false true = .ok true :=
  ⟨(dsl_suite_create_missing_callback false true ("outer inner")).1,
   (dsl_suite_create_missing_callback false true ("outer inner")).2.2 rfl⟩

/-! ## The `Test` entity (src/unnamed/part_014) and the `Runnable` data it
inherits (src/src/runnable.ts)

Field-name mapping to the source: `tmoV` is `_timeout`, `slowV` is `_slow`,
`retriesV` is `_retries`, `currentRetryV` is `_currentRetry`,
`allowedGlobals` is `_allowedGlobals` (absent until first assigned), `tid`
is the mocha id assigned at construction, `ctx` an opaque reference to the
context object. -/

/-- A JavaScript function value used as a runnable body: its source text
(`toString()`) and its declared parameter count (`length`). -/
structure FnData where
  code : String
  arity : Nat
deriving DecidableEq, Repr

/-- The `state` property: `constants.STATE_FAILED / STATE_PASSED /
STATE_PENDING` of runnable.ts. -/
inductive RState where
  | failed | passed | pending
deriving DecidableEq, Repr

/-- The reporter speed classification of a `Test`. -/
inductive Speed where
  | slow | medium | fast
deriving DecidableEq, Repr

/-- The data a `Test`/`Hook` reads off its parent suite: `titlePath()`,
`root` and the mocha id (suite.ts is not among the provided sources; these
are exactly the parent fields `titlePath`, `fullTitle` and `serialize`
consult). -/
structure SuiteRef where
  titles : List String
  root : Bool
  sid : Nat
deriving DecidableEq, Repr

def SuiteRef.fullTitle (p : SuiteRef) : String := String.intercalate (" ") p.titles

structure TestCore where
  title : String
  fn : Option FnData
  body : String
  asyn : Bool
  sync : Bool
  tmoV : Int
  slowV : Int
  retriesV : Int
  currentRetryV : Nat
  allowedGlobals : Option (List String)
  pending : Bool
  timedOut : Bool
  state : Option RState
  err : Option MErr
  parent : Option SuiteRef
  file : Option String
  ctx : Option Nat
  tid : Nat
  duration : Option Nat
  speed : Option Speed
deriving DecidableEq, Repr

/-- The `body` text computed by the `Runnable` constructor: `toString()` of
the body function, or the empty string when there is none. -/
def bodyOf (fn : Option FnData) : String :=
  match fn with
  | some f => f.code
  | none => ""

/-- The `Test` constructor (part_014): `Runnable.call(this, title, fn)`
followed by `Test.prototype.reset` (`Runnable.prototype.reset` plus
`this.pending = !this.fn`). -/
def Test.newCore (title : String) (fn : Option FnData) (tid : Nat) : TestCore :=
  { title := title
    fn := fn
    body := bodyOf fn
    asyn := fn.isSome && (match fn with | some f => f.arity != 0 | none => false)
    sync := !(fn.isSome && (match fn with | some f => f.arity != 0 | none => false))
    tmoV := 2000
    slowV := 75
    retriesV := -1
    currentRetryV := 0
    allowedGlobals := none
    pending := fn.isNone
    timedOut := false
    state := none
    err := none
    parent := none
    file := none
    ctx := none
    tid := tid
    duration := none
    speed := none }

/-- The `Runnable.prototype.timeout` setter on `Test` data (no live timer). -/
def TestCore.timeoutSet (c : TestCore) (ms : Int) : TestCore :=
  { c with tmoV := timeoutStore ms }

/-- The `Runnable.prototype.slow` setter (numeric argument: stored verbatim). -/
def TestCore.slowSet (c : TestCore) (ms : Int) : TestCore :=
  { c with slowV := ms }

/-- The `Runnable.prototype.retries` setter. -/
def TestCore.retriesSet (c : TestCore) (n : Int) : TestCore :=
  { c with retriesV := n }

/-- The `Runnable.prototype.currentRetry` setter. -/
def TestCore.currentRetrySet (c : TestCore) (n : Nat) : TestCore :=
  { c with currentRetryV := n }

/-- The `Runnable.prototype.globals` accessor: with `undefined` it is the getter and
assigns nothing; with a list it assigns `_allowedGlobals`. -/
def TestCore.globalsSet (c : TestCore) (g : Option (List String)) : TestCore :=
  match g with
  | none => c
  | some g => { c with allowedGlobals := some g }

/-- The `Runnable.prototype.titlePath` getter:
`(this.parent?.titlePath() || []).concat([this.title])`. -/
def TestCore.titlePath (c : TestCore) : List String :=
  (match c.parent with | some p => p.titles | none => []) ++ [c.title]

/-- The `Runnable.prototype.fullTitle` getter: the title path joined with
single spaces. -/
def TestCore.fullTitle (c : TestCore) : String :=
  String.intercalate (" ") c.titlePath

/-- A `Test` instance: its own fields plus the `_retriedTest` reference. -/
inductive Test where
  | mk (core : TestCore) (retried : Option Test)

def Test.core : Test → TestCore
  | .mk c _ => c

def Test.retried : Test → Option Test
  | .mk _ r => r

/-- part_014 `Test.prototype.clone`: a fresh `Test` on the same title and
body, then the `timeout`/`slow`/`retries`/`currentRetry`/`retriedTest`/
`globals` setters fed with the getters of this test, then `parent`, `file` and
`ctx` copied; `retriedTest` becomes `this.retriedTest() || this`. -/
def Test.clone (t : Test) (newId : Nat) : Test :=
  let c := Test.newCore t.core.title t.core.fn newId
  let c := c.timeoutSet t.core.tmoV
  let c := c.slowSet t.core.slowV
  let c := c.retriesSet t.core.retriesV
  let c := c.currentRetrySet t.core.currentRetryV
  let c := c.globalsSet t.core.allowedGlobals
  let c := { c with parent := t.core.parent, file := t.core.file, ctx := t.core.ctx }
  Test.mk c (some (t.retried.getD t))

/-- The timeout setter stores back any value it itself can produce. -/
theorem timeoutStore_fixed (v : Int) (h0 : 0 ≤ v) (h1 : v < INT_MAX) :
    timeoutStore v = v := by
  unfold timeoutStore clamp
  rw [max_eq_left h0, min_eq_left h1.le]
  rcases eq_or_lt_of_le h0 with h | h
  · rw [if_pos (Or.inl h.symm)]
    exact h
  · rw [if_neg (by omega)]

/-- C6: `clone()` yields a Test agreeing with the original on title, body
function, timeout threshold, slow threshold, retry budget, current retry
counter, globals, parent, file and ctx; its `retriedTest` is the
`retriedTest` of the original when set and otherwise the original itself; its execution
state is freshly reset (`state`/`err` unset, `timedOut` false); and under a
fresh mocha id it is a distinct instance.  The timeout hypothesis says the
stored threshold is one the setter can produce, which holds in every
reachable state. -/
theorem test_clone_shares_config_resets_state (t : Test) (newId : Nat)
    (h0 : 0 ≤ t.core.tmoV) (h1 : t.core.tmoV < INT_MAX)
    (hb : t.core.body = bodyOf t.core.fn) (hid : newId ≠ t.core.tid) :
    (t.clone newId).core.title = t.core.title ∧
    (t.clone newId).core.fn = t.core.fn ∧
    (t.clone newId).core.body = t.core.body ∧
    (t.clone newId).core.tmoV = t.core.tmoV ∧
    (t.clone newId).core.slowV = t.core.slowV ∧
    (t.clone newId).core.retriesV = t.core.retriesV ∧
    (t.clone newId).core.currentRetryV = t.core.currentRetryV ∧
    (t.clone newId).core.allowedGlobals = t.core.allowedGlobals ∧
    (t.clone newId).core.parent = t.core.parent ∧
    (t.clone newId).core.file = t.core.file ∧
    (t.clone newId).core.ctx = t.core.ctx ∧
    (t.clone newId).retried = some (t.retried.getD t) ∧
    (t.clone newId).core.state = none ∧
    (t.clone newId).core.err = none ∧
    (t.clone newId).core.timedOut = false ∧
    (t.clone newId).core.tid ≠ t.core.tid := by
  obtain ⟨c, r⟩ := t
  simp only [Test.core, Test.retried] at h0 h1 hb hid
  refine ⟨?_, ?_, ?_, ?_, ?_, ?_, ?_, ?_, ?_, ?_, ?_, ?_, ?_, ?_, ?_, ?_⟩ <;>
    cases hg : c.allowedGlobals <;>
      simp [Test.clone, Test.newCore, TestCore.timeoutSet, TestCore.slowSet,
        TestCore.retriesSet, TestCore.currentRetrySet, TestCore.globalsSet,
        Test.core, Test.retried, hg, hb, hid, timeoutStore_fixed c.tmoV h0 h1]

/-- A concrete already-run test with a parent suite, used as witness and in
the serialization counterexample. -/
def testSample : Test :=
  Test.mk
    { Test.newCore ("does things") (some ⟨"function () \x7b\x7d", 0⟩) 4 with
        parent := some ⟨["outer", "inner"], false, 7⟩
        file := some ("a.js")
        ctx := some 11
        currentRetryV := 2
        state := some .failed
        err := some sampleErr
        duration := some 12 }
    none

/-- Witness for `test_clone_shares_config_resets_state` on `testSample`. -/
theorem test_clone_shares_config_resets_state_witness :
    (0 : Int) ≤ testSample.core.tmoV ∧
    (Test.clone testSample 99).core.state = none ∧
    (Test.clone testSample 99).core.currentRetryV = 2 ∧
    (Test.clone testSample 99).retried = some testSample :=
  have h := test_clone_shares_config_resets_state testSample 99
    (by decide) (by decide) rfl (by decide)
  ⟨by decide, h.2.2.2.2.2.2.2.2.2.2.2.2.1, h.2.2.2.2.2.2.1, h.2.2.2.2.2.2.2.2.2.2.2.1⟩

/-! ## Serialization (part_014 `Test.prototype.serialize`,
src/src/hook.ts `Hook.prototype.serialize`)

Both return a fixed-shape plain object; the `$$`-prefixed keys carry values
obtained by calling functions.  `Test.serialize` sets
`$$retriedTest: this._retriedTest || null` — the raw `Test` reference, not a
flattened copy. -/

/-- The object returned by `Test.prototype.serialize`, field for field
(`parentS` is the pair `$$fullTitle` / mocha id of the minimal parent
reference; `idS` is the `[MOCHA_ID_PROP_NAME]` entry). -/
structure SerializedTest where
  currentRetryS : Nat
  fullTitleS : String
  isPendingS : Bool
  retriedTestS : Option Test
  slowS : Int
  titlePathS : List String
  bodyS : String
  durationS : Option Nat
  errS : Option MErr
  parentS : Option String × Option Nat
  speedS : Option Speed
  stateS : Option RState
  titleS : String
  typeS : String
  fileS : Option String
  idS : Nat

def Test.serialize (t : Test) : SerializedTest :=
  { currentRetryS := t.core.currentRetryV
    fullTitleS := t.core.fullTitle
    isPendingS := t.core.pending
    retriedTestS := t.retried
    slowS := t.core.slowV
    titlePathS := t.core.titlePath
    bodyS := t.core.body
    durationS := t.core.duration
    errS := t.core.err
    parentS := (t.core.parent.map SuiteRef.fullTitle, t.core.parent.map (·.sid))
    speedS := t.core.speed
    stateS := t.core.state
    titleS := t.core.title
    typeS := "test"
    fileS := t.core.file
    idS := t.core.tid }

/-- Whether the snapshot reaches a JavaScript function value.  By the field
types, the only entry that can hold one is `$$retriedTest`: a raw `Test`
whose own `fn` property is the body function (a longer retry chain could
only add further ones). -/
def SerializedTest.embedsFunction (s : SerializedTest) : Bool :=
  match s.retriedTestS with
  | some t => t.core.fn.isSome
  | none => false

/-- The `Hook` fields its `serialize` reads (hook.ts): beyond the inherited
`Runnable` data, the `type` tag is fixed to `hook` and `this.ctx.currentTest`
contributes a minimal title/id reference. -/
structure HookM where
  title : String
  pending : Bool
  parentPending : Bool
  currentRetryV : Nat
  parent : Option SuiteRef
  ctxCurrentTest : Option (String × Nat)
  duration : Option Nat
  file : Option String
  state : Option RState
  tid : Nat
deriving DecidableEq, Repr

/-- The `Runnable.prototype.isPending` predicate seen from a `Hook`. -/
def HookM.isPending (h : HookM) : Bool := h.pending || h.parentPending

def HookM.titlePath (h : HookM) : List String :=
  (match h.parent with | some p => p.titles | none => []) ++ [h.title]

def HookM.fullTitle (h : HookM) : String := String.intercalate (" ") h.titlePath

/-- The object returned by `Hook.prototype.serialize`. -/
structure SerializedHook where
  currentRetryS : Nat
  fullTitleS : String
  isPendingS : Bool
  titlePathS : List String
  ctxS : Option (String × Nat)
  durationS : Option Nat
  fileS : Option String
  parentS : Option String × Option Nat
  stateS : Option RState
  titleS : String
  typeS : String
  idS : Nat
deriving DecidableEq, Repr

def Hook.serialize (h : HookM) : SerializedHook :=
  { currentRetryS := h.currentRetryV
    fullTitleS := h.fullTitle
    isPendingS := h.isPending
    titlePathS := h.titlePath
    ctxS := h.ctxCurrentTest
    durationS := h.duration
    fileS := h.file
    parentS := (h.parent.map SuiteRef.fullTitle, h.parent.map (·.sid))
    stateS := h.state
    titleS := h.title
    typeS := "hook"
    idS := h.tid }

/-- A test that was retried from `testSample` (which has a body function). -/
def retriedCloneSample : Test :=
  Test.mk
    { Test.newCore ("does things") (some ⟨"function () \x7b\x7d", 0⟩) 5 with
        parent := some ⟨["outer", "inner"], false, 7⟩
        currentRetryV := 3 }
    (some testSample)

/-- Counterexample to C9 as stated: a Test whose `retriedTest` chain is
non-empty serializes to a snapshot that does contain a function value — the
`$$retriedTest` field holds the raw retried Test, whose `fn` property is its
body function — so the snapshot is not function-free (nor an acyclic plain
tree of data: it references the live object graph). -/
theorem test_serialize_embeds_function_cex :
    (Test.serialize retriedCloneSample).retriedTestS.isSome = true ∧
    (Test.serialize retriedCloneSample).embedsFunction = true := by
  exact ⟨rfl, rfl⟩

/-- C9 (amended): the serialized snapshot reproduces the live getters —
title, duration, state, `$$fullTitle = fullTitle()`,
`$$isPending = Boolean(pending)`, `$$currentRetry = currentRetry()` — and
the parent entry carries only full title and id of the parent; the snapshot
is free of function values provided `retriedTest` is unset (otherwise
`$$retriedTest` embeds the raw retried Test, body function included).  The
analogous getter equalities hold for `Hook.serialize`, with
`$$isPending = Boolean(isPending())`. -/
theorem test_hook_serialize_roundtrip (t : Test) (h : HookM) :
    (Test.serialize t).titleS = t.core.title ∧
    (Test.serialize t).durationS = t.core.duration ∧
    (Test.serialize t).stateS = t.core.state ∧
    (Test.serialize t).fullTitleS = t.core.fullTitle ∧
    (Test.serialize t).isPendingS = t.core.pending ∧
    (Test.serialize t).currentRetryS = t.core.currentRetryV ∧
    (Test.serialize t).parentS
      = (t.core.parent.map SuiteRef.fullTitle, t.core.parent.map (·.sid)) ∧
    (t.retried = none → (Test.serialize t).embedsFunction = false) ∧
    (Hook.serialize h).titleS = h.title ∧
    (Hook.serialize h).durationS = h.duration ∧
    (Hook.serialize h).stateS = h.state ∧
    (Hook.serialize h).fullTitleS = h.fullTitle ∧
    (Hook.serialize h).isPendingS = h.isPending ∧
    (Hook.serialize h).currentRetryS = h.currentRetryV := by
  refine ⟨rfl, rfl, rfl, rfl, rfl, rfl, rfl, fun hr => ?_,
    rfl, rfl, rfl, rfl, rfl, rfl⟩
  simp [Test.serialize, SerializedTest.embedsFunction, hr]

/-- Witness for `test_hook_serialize_roundtrip`: `testSample` has no
retried predecessor, and its snapshot is function-free. -/
theorem test_hook_serialize_roundtrip_witness :
    testSample.retried = none ∧
    (Test.serialize testSample).embedsFunction = false ∧
    (Test.serialize testSample).stateS = some RState.failed :=
  have h := test_hook_serialize_roundtrip testSample
    ⟨"before each", false, false, 0, none, none, none, none, none, 8⟩
  ⟨rfl, h.2.2.2.2.2.2.2.1 rfl, h.2.2.1⟩

end MochaSpec
